import Mathlib

/-!
A shallow embedding of `src/scripts/format_media.py` and proofs about it.

Modelling conventions:
* Python `int` is modelled as `ℤ`.
* Python `float` arithmetic on the pixel-sized quantities involved is
  modelled exactly by `ℚ`; the Python built-in `round` (round half to
  even, i.e. banker rounding) is modelled by `pyRound`.
* Python floor division `//` appears in the source only with the
  positive divisor 2, where it agrees with the `ℤ` division `/`
  (Euclidean division rounds toward negative infinity for a positive
  divisor, exactly like the Python `//`).
* The media-kind resolution block of `main` performs file probes
  (a PIL image decode and an ffprobe call); its control flow is
  embedded as a pure function over a `ProbeEnv` recording the outcome
  of each probe.
-/

namespace FormatMedia

/-- The Python built-in `round` over `ℚ`: nearest integer, ties go to
the even neighbour. -/
def pyRound (q : ℚ) : ℤ :=
  if q - (⌊q⌋ : ℚ) < 1/2 then ⌊q⌋
  else if 1/2 < q - (⌊q⌋ : ℚ) then ⌊q⌋ + 1
  else if ⌊q⌋ % 2 = 0 then ⌊q⌋ else ⌊q⌋ + 1

/-- Embeds `clamp01` (format_media.py, lines 54-59). -/
def clamp01 (x : ℚ) : ℚ :=
  if x < 0 then 0
  else if x > 1 then 1
  else x

/-- Embeds `crop_box_centered` (format_media.py, lines 85-124).
Returns `(left, top, width, height)`.  The source assigns `crop_w` and
`crop_h` in a single if/else; here the same condition selects each
component.  `left0/top0` are the raw focal offsets, `left1/top1` the
result of the `< 0` clamps, `left2/top2` of the `> max` clamps. -/
def crop_box_centered (src_w src_h target_w target_h : ℤ)
    (focal_x focal_y : ℚ) : ℤ × ℤ × ℤ × ℤ :=
  let src_r : ℚ := (src_w : ℚ) / (src_h : ℚ)
  let tgt_r : ℚ := (target_w : ℚ) / (target_h : ℚ)
  let crop_w : ℤ := if src_r > tgt_r then pyRound ((src_h : ℚ) * tgt_r) else src_w
  let crop_h : ℤ := if src_r > tgt_r then src_h else pyRound ((src_w : ℚ) / tgt_r)
  let max_left : ℤ := max 0 (src_w - crop_w)
  let max_top : ℤ := max 0 (src_h - crop_h)
  let left0 : ℤ := pyRound ((max_left : ℚ) * focal_x)
  let top0 : ℤ := pyRound ((max_top : ℚ) * focal_y)
  let left1 : ℤ := if left0 < 0 then 0 else left0
  let top1 : ℤ := if top0 < 0 then 0 else top0
  let left2 : ℤ := if left1 > max_left then max_left else left1
  let top2 : ℤ := if top1 > max_top then max_top else top1
  (left2, top2, crop_w, crop_h)

/-- Embeds `pad_box` (format_media.py, lines 127-139). -/
def pad_box (src_w src_h target_w target_h : ℤ) : ℤ × ℤ :=
  let scale : ℚ := min ((target_w : ℚ) / (src_w : ℚ)) ((target_h : ℚ) / (src_h : ℚ))
  (pyRound ((src_w : ℚ) * scale), pyRound ((src_h : ℚ) * scale))

/-- Embeds the pad-mode placement computed by `format_image`
(format_media.py, lines 159-163): `x = (target_w - new_w) // 2` and
`y = (target_h - new_h) // 2`. -/
def pad_placement (src_w src_h target_w target_h : ℤ) : ℤ × ℤ :=
  let wh := pad_box src_w src_h target_w target_h
  ((target_w - wh.1) / 2, (target_h - wh.2) / 2)

/-- Embeds `IMAGE_EXTS` (format_media.py, line 23). -/
def IMAGE_EXTS : List String := [".jpg", ".jpeg", ".png", ".webp"]

/-- Embeds `VIDEO_EXTS` (format_media.py, line 24). -/
def VIDEO_EXTS : List String := [".mp4", ".mov", ".m4v", ".webm"]

/-- Lowercasing of a suffix, as `str.lower` in Python.  The core
`String.toLower` is `s.map Char.toLower` computed by position; this
equivalent maps `Char.toLower` over the character list, which lets
concrete instances evaluate by `decide`. -/
def lower (s : String) : String := ⟨s.data.map Char.toLower⟩

/-- Embeds `is_image` (format_media.py, lines 77-78): membership of the
lowercased suffix in `IMAGE_EXTS`. -/
def is_image (ext : String) : Bool := IMAGE_EXTS.contains (lower ext)

/-- Embeds `is_video` (format_media.py, lines 81-82). -/
def is_video (ext : String) : Bool := VIDEO_EXTS.contains (lower ext)

/-- The outcomes of the two content probes available to `main`:
`imageDecode` is `some fmt` when `Image.open` succeeds and reports the
lowercased format name `fmt`, and `none` when it raises; `videoProbe`
is `true` when `ffprobe_dims` succeeds. -/
structure ProbeEnv where
  imageDecode : Option String
  videoProbe : Bool
deriving DecidableEq

/-- The observable result of the kind-resolution block of `main`
(format_media.py, lines 272-298): the file suffix after any rename,
with `none` modelling the fatal `Kon bestandstype niet bepalen` error,
together with which probes were attempted. -/
structure ResolveOut where
  newExt : Option String
  imageProbed : Bool
  videoProbed : Bool
deriving DecidableEq

/-- Embeds `main`, lines 272-298: only the `.bin` placeholder suffix
triggers probing; a recognized decoded format renames the file, an
unrecognized one leaves `.bin` in place, and the video probe runs only
when the image decode raised. -/
def resolve_kind (ext : String) (env : ProbeEnv) : ResolveOut :=
  if ext = ".bin" then
    match env.imageDecode with
    | some fmt =>
      if fmt = "jpeg" ∨ fmt = "jpg" then ⟨some ".jpg", true, false⟩
      else if fmt = "png" then ⟨some ".png", true, false⟩
      else if fmt = "webp" then ⟨some ".webp", true, false⟩
      else ⟨some ".bin", true, false⟩
    | none =>
      if env.videoProbe then ⟨some ".mp4", true, true⟩
      else ⟨none, true, true⟩
  else ⟨some ext, false, false⟩

/-- How a run ends after kind resolution (format_media.py,
lines 300-314). -/
inductive RunOutcome where
  | wroteImage
  | wroteVideo
  | kindError
  | unknownType (ext : String)
deriving DecidableEq

/-- Embeds the dispatch at the end of `main` (format_media.py,
lines 300-314), composed with the kind resolution of lines 272-298. -/
def run_outcome (ext : String) (env : ProbeEnv) : RunOutcome :=
  match (resolve_kind ext env).newExt with
  | none => RunOutcome.kindError
  | some e =>
    if is_image e then RunOutcome.wroteImage
    else if is_video e then RunOutcome.wroteVideo
    else RunOutcome.unknownType e

/-! ### Basic facts about `pyRound` -/

theorem abs_pyRound_sub_le (q : ℚ) : |(pyRound q : ℚ) - q| ≤ 1/2 := by
  have h0 : (⌊q⌋ : ℚ) ≤ q := Int.floor_le q
  have h1 : q < (⌊q⌋ : ℚ) + 1 := Int.lt_floor_add_one q
  unfold pyRound
  split_ifs with hc1 hc2 hc3 <;> rw [abs_le] <;> constructor <;> push_cast <;> linarith

theorem pyRound_intCast (n : ℤ) : pyRound (n : ℚ) = n := by
  unfold pyRound
  rw [Int.floor_intCast]
  norm_num

theorem pyRound_zero : pyRound 0 = 0 := by
  have h := pyRound_intCast 0
  simpa using h

theorem pyRound_le_of_le (q : ℚ) (m : ℤ) (h : q ≤ (m : ℚ)) : pyRound q ≤ m := by
  have habs := abs_pyRound_sub_le q
  rw [abs_le] at habs
  have h2 : (pyRound q : ℚ) < (m : ℚ) + 1 := by linarith [habs.2]
  have h3 : pyRound q < m + 1 := by exact_mod_cast h2
  omega

theorem pyRound_nonneg (q : ℚ) (h : 0 ≤ q) : 0 ≤ pyRound q := by
  have habs := abs_pyRound_sub_le q
  rw [abs_le] at habs
  have h2 : (-1 : ℚ) < (pyRound q : ℚ) := by linarith [habs.1]
  have h3 : (-1 : ℤ) < pyRound q := by exact_mod_cast h2
  omega

/-! ### Claims about the geometry engine -/

/-- C1: for every source and target `Dimensions` with positive
components and every focal point, `crop_box_centered` returns
`(left, top, width, height)` with `width ≤ src_w`, `height ≤ src_h`,
`0 ≤ left`, `0 ≤ top`, `left + width ≤ src_w` and
`top + height ≤ src_h`: the box lies fully within the source. -/
theorem crop_box_in_source
    (src_w src_h target_w target_h : ℤ)
    (hsw : 0 < src_w) (hsh : 0 < src_h) (htw : 0 < target_w) (hth : 0 < target_h)
    (focal_x focal_y : ℚ) (l t w h : ℤ)
    (heq : crop_box_centered src_w src_h target_w target_h focal_x focal_y = (l, t, w, h)) :
    w ≤ src_w ∧ h ≤ src_h ∧ 0 ≤ l ∧ 0 ≤ t ∧ l + w ≤ src_w ∧ t + h ≤ src_h := by
  have hsw0 : (0 : ℚ) < (src_w : ℚ) := by exact_mod_cast hsw
  have hsh0 : (0 : ℚ) < (src_h : ℚ) := by exact_mod_cast hsh
  have htw0 : (0 : ℚ) < (target_w : ℚ) := by exact_mod_cast htw
  have hth0 : (0 : ℚ) < (target_h : ℚ) := by exact_mod_cast hth
  have hsh' : (src_h : ℚ) ≠ 0 := ne_of_gt hsh0
  by_cases hR : (src_w : ℚ) / (src_h : ℚ) > (target_w : ℚ) / (target_h : ℚ)
  · have hle : (src_h : ℚ) * ((target_w : ℚ) / (target_h : ℚ)) ≤ (src_w : ℚ) := by
      have h2 : (src_h : ℚ) * ((target_w : ℚ) / (target_h : ℚ)) ≤
          (src_h : ℚ) * ((src_w : ℚ) / (src_h : ℚ)) :=
        mul_le_mul_of_nonneg_left (le_of_lt hR) (le_of_lt hsh0)
      have h3 : (src_h : ℚ) * ((src_w : ℚ) / (src_h : ℚ)) = (src_w : ℚ) := by
        field_simp
      linarith
    have hwle : pyRound ((src_h : ℚ) * ((target_w : ℚ) / (target_h : ℚ))) ≤ src_w :=
      pyRound_le_of_le _ _ hle
    have hwnn : 0 ≤ pyRound ((src_h : ℚ) * ((target_w : ℚ) / (target_h : ℚ))) := by
      apply pyRound_nonneg
      positivity
    simp only [crop_box_centered, if_pos hR, Prod.mk.injEq] at heq
    obtain ⟨hl, ht, hw, hh⟩ := heq
    subst hl; subst ht; subst hw; subst hh
    refine ⟨hwle, le_refl _, ?_, ?_, ?_, ?_⟩ <;> split_ifs <;> omega
  · have hR' : (src_w : ℚ) / (src_h : ℚ) ≤ (target_w : ℚ) / (target_h : ℚ) :=
      le_of_not_lt hR
    have hle : (src_w : ℚ) / ((target_w : ℚ) / (target_h : ℚ)) ≤ (src_h : ℚ) := by
      rw [div_le_iff₀ (by positivity)]
      have h2 : (src_h : ℚ) * ((src_w : ℚ) / (src_h : ℚ)) ≤
          (src_h : ℚ) * ((target_w : ℚ) / (target_h : ℚ)) :=
        mul_le_mul_of_nonneg_left hR' (le_of_lt hsh0)
      have h3 : (src_h : ℚ) * ((src_w : ℚ) / (src_h : ℚ)) = (src_w : ℚ) := by
        field_simp
      linarith
    have hhle : pyRound ((src_w : ℚ) / ((target_w : ℚ) / (target_h : ℚ))) ≤ src_h :=
      pyRound_le_of_le _ _ hle
    have hhnn : 0 ≤ pyRound ((src_w : ℚ) / ((target_w : ℚ) / (target_h : ℚ))) := by
      apply pyRound_nonneg
      positivity
    simp only [crop_box_centered, if_neg hR, Prod.mk.injEq] at heq
    obtain ⟨hl, ht, hw, hh⟩ := heq
    subst hl; subst ht; subst hw; subst hh
    refine ⟨le_refl _, hhle, ?_, ?_, ?_, ?_⟩ <;> split_ifs <;> omega

/-- C1 witness at src 4000x3000, target 1080x1920, centered focal. -/
theorem crop_box_in_source_witness :
    (1688 : ℤ) ≤ 4000 ∧ (3000 : ℤ) ≤ 3000 ∧ (0 : ℤ) ≤ 1156 ∧ (0 : ℤ) ≤ 0 ∧
      (1156 : ℤ) + 1688 ≤ 4000 ∧ (0 : ℤ) + 3000 ≤ 3000 :=
  crop_box_in_source 4000 3000 1080 1920 (by norm_num) (by norm_num) (by norm_num)
    (by norm_num) (1/2) (1/2) 1156 0 1688 3000
    (by norm_num [crop_box_centered, pyRound])

/-- C2: the crop box matches the target aspect to within half a pixel
on the constrained axis: in the wider-source branch the width is within
`1/2` of `src_h * (target_w / target_h)` and the height is `src_h`; in
the other branch the height is within `1/2` of
`src_w * (target_h / target_w)` and the width is `src_w`. -/
theorem crop_box_aspect
    (src_w src_h target_w target_h : ℤ)
    (_hsw : 0 < src_w) (_hsh : 0 < src_h) (_htw : 0 < target_w) (_hth : 0 < target_h)
    (focal_x focal_y : ℚ) (l t w h : ℤ)
    (heq : crop_box_centered src_w src_h target_w target_h focal_x focal_y = (l, t, w, h)) :
    ((src_w : ℚ) / (src_h : ℚ) > (target_w : ℚ) / (target_h : ℚ) →
        |(w : ℚ) - (src_h : ℚ) * ((target_w : ℚ) / (target_h : ℚ))| ≤ 1/2 ∧ h = src_h) ∧
    (¬((src_w : ℚ) / (src_h : ℚ) > (target_w : ℚ) / (target_h : ℚ)) →
        |(h : ℚ) - (src_w : ℚ) * ((target_h : ℚ) / (target_w : ℚ))| ≤ 1/2 ∧ w = src_w) := by
  constructor
  · intro hR
    simp only [crop_box_centered, if_pos hR, Prod.mk.injEq] at heq
    obtain ⟨hl, ht, hw, hh⟩ := heq
    subst hw; subst hh
    exact ⟨abs_pyRound_sub_le _, rfl⟩
  · intro hR
    simp only [crop_box_centered, if_neg hR, Prod.mk.injEq] at heq
    obtain ⟨hl, ht, hw, hh⟩ := heq
    subst hw; subst hh
    refine ⟨?_, rfl⟩
    have hrw : (src_w : ℚ) / ((target_w : ℚ) / (target_h : ℚ)) =
        (src_w : ℚ) * ((target_h : ℚ) / (target_w : ℚ)) := by
      rw [div_div_eq_mul_div, mul_div_assoc]
    rw [← hrw]
    exact abs_pyRound_sub_le _

/-- C2 witness at src 4000x3000, target 1080x1920: the wider-source
branch applies and the width 1688 is exactly half a pixel from
`3000 * (1080 / 1920) = 1687.5`. -/
theorem crop_box_aspect_witness :
    |(1688 : ℚ) - (3000 : ℚ) * ((1080 : ℚ) / (1920 : ℚ))| ≤ 1/2 ∧ (3000 : ℤ) = 3000 :=
  (crop_box_aspect 4000 3000 1080 1920 (by norm_num) (by norm_num) (by norm_num)
      (by norm_num) (1/2) (1/2) 1156 0 1688 3000
      (by norm_num [crop_box_centered, pyRound])).1 (by norm_num)

/-- C3 counterexample: on src 4000x3000, target 1080x1920, focal
(0.5, 0.5), the spec example claims the box (left 1157, top 0,
width 1687, height 3000); the code does not return it, because the
Python `round` sends the tie `1687.5` to the even value `1688`. -/
theorem crop_box_example_claim_false :
    ¬(crop_box_centered 4000 3000 1080 1920 (1/2) (1/2) = (1157, 0, 1687, 3000)) := by
  norm_num [crop_box_centered, pyRound]

/-- C3 amended: on src 4000x3000, target 1080x1920, focal (0.5, 0.5),
`crop_box_centered` returns left 1156, top 0, width 1688, height 3000:
`round(1687.5) = 1688` under round-half-to-even, and
`round((4000 - 1688) * 0.5) = 1156`. -/
theorem crop_box_example :
    crop_box_centered 4000 3000 1080 1920 (1/2) (1/2) = (1156, 0, 1688, 3000) := by
  norm_num [crop_box_centered, pyRound]

/-- C7: with focal point (0,0) the crop box is anchored top-left
(`left = top = 0`); with focal point (1,1) it is anchored bottom-right
(`left = max 0 (src_w - width)`, `top = max 0 (src_h - height)`). -/
theorem crop_box_focal_corners
    (src_w src_h target_w target_h : ℤ)
    (_hsw : 0 < src_w) (_hsh : 0 < src_h) (_htw : 0 < target_w) (_hth : 0 < target_h)
    (l0 t0 w0 h0 l1 t1 w1 h1 : ℤ)
    (heq0 : crop_box_centered src_w src_h target_w target_h 0 0 = (l0, t0, w0, h0))
    (heq1 : crop_box_centered src_w src_h target_w target_h 1 1 = (l1, t1, w1, h1)) :
    l0 = 0 ∧ t0 = 0 ∧ l1 = max 0 (src_w - w1) ∧ t1 = max 0 (src_h - h1) := by
  by_cases hR : (src_w : ℚ) / (src_h : ℚ) > (target_w : ℚ) / (target_h : ℚ)
  · simp only [crop_box_centered, if_pos hR, Prod.mk.injEq, mul_zero, mul_one,
      pyRound_zero, pyRound_intCast] at heq0 heq1
    obtain ⟨hl0, ht0, hw0, hh0⟩ := heq0
    obtain ⟨hl1, ht1, hw1, hh1⟩ := heq1
    subst hl0; subst ht0; subst hw0; subst hh0
    subst hl1; subst ht1; subst hw1; subst hh1
    refine ⟨?_, ?_, ?_, ?_⟩ <;> split_ifs <;> omega
  · simp only [crop_box_centered, if_neg hR, Prod.mk.injEq, mul_zero, mul_one,
      pyRound_zero, pyRound_intCast] at heq0 heq1
    obtain ⟨hl0, ht0, hw0, hh0⟩ := heq0
    obtain ⟨hl1, ht1, hw1, hh1⟩ := heq1
    subst hl0; subst ht0; subst hw0; subst hh0
    subst hl1; subst ht1; subst hw1; subst hh1
    refine ⟨?_, ?_, ?_, ?_⟩ <;> split_ifs <;> omega

/-- C7 witness at src 4000x3000, target 1080x1920: focal (0,0) gives
left = top = 0 and focal (1,1) gives left = 2312 = max 0 (4000 - 1688),
top = 0 = max 0 (3000 - 3000). -/
theorem crop_box_focal_corners_witness :
    (0 : ℤ) = 0 ∧ (0 : ℤ) = 0 ∧ (2312 : ℤ) = max 0 (4000 - 1688) ∧
      (0 : ℤ) = max 0 (3000 - 3000) :=
  crop_box_focal_corners 4000 3000 1080 1920 (by norm_num) (by norm_num) (by norm_num)
    (by norm_num) 0 0 1688 3000 2312 0 1688 3000
    (by norm_num [crop_box_centered, pyRound])
    (by norm_num [crop_box_centered, pyRound])

/-- C8: when source and target have exactly the same aspect ratio, the
crop box is the whole source and `left = top = 0`, for every focal
point. -/
theorem crop_box_same_aspect
    (src_w src_h target_w target_h : ℤ)
    (hsw : 0 < src_w) (hsh : 0 < src_h) (_htw : 0 < target_w) (_hth : 0 < target_h)
    (hr : (src_w : ℚ) / (src_h : ℚ) = (target_w : ℚ) / (target_h : ℚ))
    (focal_x focal_y : ℚ) :
    crop_box_centered src_w src_h target_w target_h focal_x focal_y = (0, 0, src_w, src_h) := by
  have hR : ¬((src_w : ℚ) / (src_h : ℚ) > (target_w : ℚ) / (target_h : ℚ)) := by
    rw [hr]
    exact lt_irrefl _
  have hsw0 : (0 : ℚ) < (src_w : ℚ) := by exact_mod_cast hsw
  have hsh0 : (0 : ℚ) < (src_h : ℚ) := by exact_mod_cast hsh
  have hsw' : (src_w : ℚ) ≠ 0 := ne_of_gt hsw0
  have hsh' : (src_h : ℚ) ≠ 0 := ne_of_gt hsh0
  have hkey : (src_w : ℚ) / ((target_w : ℚ) / (target_h : ℚ)) = (src_h : ℚ) := by
    rw [← hr]
    field_simp
  simp [crop_box_centered, if_neg hR, hkey, pyRound_intCast, pyRound_zero]

/-- C8 witness: src 4000x3000 and target 2000x1500 share the ratio 4:3,
so the crop box is the full source for the focal point (1/3, 2/3). -/
theorem crop_box_same_aspect_witness :
    crop_box_centered 4000 3000 2000 1500 (1/3) (2/3) = (0, 0, 4000, 3000) :=
  crop_box_same_aspect 4000 3000 2000 1500 (by norm_num) (by norm_num) (by norm_num)
    (by norm_num) (by norm_num) (1/3) (2/3)

/-- C5: `pad_box` returns dimensions bounded by the target with at
least one axis exactly equal, and the caller of `format_image` centers
the box with offsets equal to half the slack, rounded down (toward the
top-left) on an odd remainder. -/
theorem pad_box_fits
    (src_w src_h target_w target_h : ℤ)
    (hsw : 0 < src_w) (hsh : 0 < src_h) (htw : 0 < target_w) (hth : 0 < target_h)
    (new_w new_h off_x off_y : ℤ)
    (heqb : pad_box src_w src_h target_w target_h = (new_w, new_h))
    (heqp : pad_placement src_w src_h target_w target_h = (off_x, off_y)) :
    new_w ≤ target_w ∧ new_h ≤ target_h ∧ (new_w = target_w ∨ new_h = target_h) ∧
    0 ≤ off_x ∧ 2 * off_x ≤ target_w - new_w ∧ target_w - new_w ≤ 2 * off_x + 1 ∧
    0 ≤ off_y ∧ 2 * off_y ≤ target_h - new_h ∧ target_h - new_h ≤ 2 * off_y + 1 := by
  have hsw0 : (0 : ℚ) < (src_w : ℚ) := by exact_mod_cast hsw
  have hsh0 : (0 : ℚ) < (src_h : ℚ) := by exact_mod_cast hsh
  have htw0 : (0 : ℚ) < (target_w : ℚ) := by exact_mod_cast htw
  have hth0 : (0 : ℚ) < (target_h : ℚ) := by exact_mod_cast hth
  have hsw' : (src_w : ℚ) ≠ 0 := ne_of_gt hsw0
  have hsh' : (src_h : ℚ) ≠ 0 := ne_of_gt hsh0
  have hw_le : (src_w : ℚ) *
      min ((target_w : ℚ) / (src_w : ℚ)) ((target_h : ℚ) / (src_h : ℚ)) ≤ (target_w : ℚ) := by
    have h2 : (src_w : ℚ) * min ((target_w : ℚ) / (src_w : ℚ)) ((target_h : ℚ) / (src_h : ℚ)) ≤
        (src_w : ℚ) * ((target_w : ℚ) / (src_w : ℚ)) :=
      mul_le_mul_of_nonneg_left (min_le_left _ _) (le_of_lt hsw0)
    have h3 : (src_w : ℚ) * ((target_w : ℚ) / (src_w : ℚ)) = (target_w : ℚ) := by
      field_simp
    linarith
  have hh_le : (src_h : ℚ) *
      min ((target_w : ℚ) / (src_w : ℚ)) ((target_h : ℚ) / (src_h : ℚ)) ≤ (target_h : ℚ) := by
    have h2 : (src_h : ℚ) * min ((target_w : ℚ) / (src_w : ℚ)) ((target_h : ℚ) / (src_h : ℚ)) ≤
        (src_h : ℚ) * ((target_h : ℚ) / (src_h : ℚ)) :=
      mul_le_mul_of_nonneg_left (min_le_right _ _) (le_of_lt hsh0)
    have h3 : (src_h : ℚ) * ((target_h : ℚ) / (src_h : ℚ)) = (target_h : ℚ) := by
      field_simp
    linarith
  have hnwle : pyRound ((src_w : ℚ) *
      min ((target_w : ℚ) / (src_w : ℚ)) ((target_h : ℚ) / (src_h : ℚ))) ≤ target_w :=
    pyRound_le_of_le _ _ hw_le
  have hnhle : pyRound ((src_h : ℚ) *
      min ((target_w : ℚ) / (src_w : ℚ)) ((target_h : ℚ) / (src_h : ℚ))) ≤ target_h :=
    pyRound_le_of_le _ _ hh_le
  have hone : pyRound ((src_w : ℚ) *
        min ((target_w : ℚ) / (src_w : ℚ)) ((target_h : ℚ) / (src_h : ℚ))) = target_w ∨
      pyRound ((src_h : ℚ) *
        min ((target_w : ℚ) / (src_w : ℚ)) ((target_h : ℚ) / (src_h : ℚ))) = target_h := by
    rcases le_total ((target_w : ℚ) / (src_w : ℚ)) ((target_h : ℚ) / (src_h : ℚ)) with hab | hab
    · left
      rw [min_eq_left hab]
      have h3 : (src_w : ℚ) * ((target_w : ℚ) / (src_w : ℚ)) = (target_w : ℚ) := by
        field_simp
      rw [h3, pyRound_intCast]
    · right
      rw [min_eq_right hab]
      have h3 : (src_h : ℚ) * ((target_h : ℚ) / (src_h : ℚ)) = (target_h : ℚ) := by
        field_simp
      rw [h3, pyRound_intCast]
  simp only [pad_box, Prod.mk.injEq] at heqb
  obtain ⟨hnw, hnh⟩ := heqb
  simp only [pad_placement, pad_box, Prod.mk.injEq] at heqp
  obtain ⟨hox, hoy⟩ := heqp
  subst hnw; subst hnh; subst hox; subst hoy
  refine ⟨hnwle, hnhle, hone, ?_, ?_, ?_, ?_, ?_, ?_⟩ <;> omega

/-- C5 witness at the spec example src 3000x4000, target 1080x1080:
`pad_box` gives 810x1080 (the height touches the target) and the
placement offsets are 135 and 0. -/
theorem pad_box_fits_witness :
    (810 : ℤ) ≤ 1080 ∧ (1080 : ℤ) ≤ 1080 ∧ ((810 : ℤ) = 1080 ∨ (1080 : ℤ) = 1080) ∧
    (0 : ℤ) ≤ 135 ∧ 2 * 135 ≤ (1080 : ℤ) - 810 ∧ (1080 : ℤ) - 810 ≤ 2 * 135 + 1 ∧
    (0 : ℤ) ≤ 0 ∧ 2 * 0 ≤ (1080 : ℤ) - 1080 ∧ (1080 : ℤ) - 1080 ≤ 2 * 0 + 1 :=
  pad_box_fits 3000 4000 1080 1080 (by norm_num) (by norm_num) (by norm_num) (by norm_num)
    810 1080 135 0
    (by norm_num [pad_box, pyRound])
    (by norm_num [pad_placement, pad_box, pyRound])

/-! ### Claims about focal clamping and the media kind resolver -/

/-- C9: a focal coordinate below 0 is replaced by 0, one above 1 by 1,
and `clamp01` is a total function with range `[0, 1]` — an out-of-range
value is always mapped into range, never rejected.  `main` applies
`clamp01` to both focal inputs when parsing arguments, before any
geometry computation. -/
theorem clamp01_spec (x : ℚ) :
    (x < 0 → clamp01 x = 0) ∧ (1 < x → clamp01 x = 1) ∧
    0 ≤ clamp01 x ∧ clamp01 x ≤ 1 := by
  refine ⟨fun hx => ?_, fun hx => ?_, ?_, ?_⟩ <;> unfold clamp01 <;> split_ifs <;> linarith

/-- C9 witness: the out-of-range focal inputs 1.5 and -0.2 are clamped
to 1 and 0. -/
theorem clamp01_spec_witness : clamp01 (3/2) = 1 ∧ clamp01 (-(1/5)) = 0 :=
  ⟨(clamp01_spec (3/2)).2.1 (by norm_num), (clamp01_spec (-(1/5))).1 (by norm_num)⟩

/-- C4 counterexample: a file with the unrecognized extension `.gif`
(not an image extension, not a video extension, and not the `.bin`
placeholder) fails the run with the unknown-file-type error while
neither the image probe nor the video probe was attempted — even
though its bytes would decode as PNG. -/
theorem unrecognized_ext_fails_without_probes :
    is_image ".gif" = false ∧ is_video ".gif" = false ∧
    (resolve_kind ".gif" ⟨some "png", true⟩).imageProbed = false ∧
    (resolve_kind ".gif" ⟨some "png", true⟩).videoProbed = false ∧
    run_outcome ".gif" ⟨some "png", true⟩ = RunOutcome.unknownType ".gif" := by
  decide

/-- C4 amended: for every acquired file whose extension is the `.bin`
placeholder, the resolver attempts the image decode; when the image
decode fails it also attempts the video probe; and such a file can only
fail with the cannot-determine-media-kind error after both probes were
attempted. -/
theorem bin_probes_before_failure (env : ProbeEnv) :
    (resolve_kind ".bin" env).imageProbed = true ∧
    (env.imageDecode = none → (resolve_kind ".bin" env).videoProbed = true) ∧
    (run_outcome ".bin" env = RunOutcome.kindError →
      (resolve_kind ".bin" env).imageProbed = true ∧
      (resolve_kind ".bin" env).videoProbed = true) := by
  obtain ⟨d, v⟩ := env
  cases d with
  | none => cases v <;> exact ⟨rfl, fun _ => rfl, fun _ => ⟨rfl, rfl⟩⟩
  | some fmt =>
    refine ⟨?_, ?_, ?_⟩
    · show (resolve_kind ".bin" ⟨some fmt, v⟩).imageProbed = true
      unfold resolve_kind
      rw [if_pos rfl]
      dsimp only
      split_ifs <;> rfl
    · intro hnone
      exact absurd hnone (Option.some_ne_none fmt)
    · intro hE
      exfalso
      revert hE
      unfold run_outcome resolve_kind
      rw [if_pos rfl]
      dsimp only
      split_ifs <;> decide

/-- C4 amended witness: for a `.bin` file on which both probes fail,
both probes were indeed attempted. -/
theorem bin_probes_before_failure_witness :
    (resolve_kind ".bin" ⟨none, false⟩).imageProbed = true ∧
    (resolve_kind ".bin" ⟨none, false⟩).videoProbed = true :=
  ⟨(bin_probes_before_failure ⟨none, false⟩).1,
   (bin_probes_before_failure ⟨none, false⟩).2.1 rfl⟩

/-- C6: the three resolver scenarios.  A `.jpg` file is classified
image with no probe attempted; a `.bin` file whose bytes decode as PNG
is renamed to `.png` and classified image; a `.bin` file failing both
probes ends the run with the cannot-determine-media-kind error. -/
theorem media_kind_scenarios :
    (∀ env : ProbeEnv, resolve_kind ".jpg" env = ⟨some ".jpg", false, false⟩ ∧
      run_outcome ".jpg" env = RunOutcome.wroteImage) ∧
    (∀ v : Bool, resolve_kind ".bin" ⟨some "png", v⟩ = ⟨some ".png", true, false⟩ ∧
      run_outcome ".bin" ⟨some "png", v⟩ = RunOutcome.wroteImage) ∧
    run_outcome ".bin" ⟨none, false⟩ = RunOutcome.kindError := by
  refine ⟨fun env => ⟨?_, ?_⟩, fun v => ?_, ?_⟩
  · unfold resolve_kind
    rw [if_neg (by decide)]
  · unfold run_outcome resolve_kind
    rw [if_neg (by decide)]
    decide
  · cases v <;> decide
  · decide

/-- C6 witness: the placeholder scenario at a concrete probe outcome. -/
theorem media_kind_scenarios_witness :
    resolve_kind ".bin" ⟨some "png", true⟩ = ⟨some ".png", true, false⟩ ∧
    run_outcome ".bin" ⟨some "png", true⟩ = RunOutcome.wroteImage :=
  media_kind_scenarios.2.1 true

/-- C10: a `.bin` file that decodes as a still image with a format
outside the recognized set (JPEG, PNG, WEBP) skips the video probe,
keeps its placeholder extension and fails the run with the
unknown-file-type error, not the cannot-determine-media-kind error. -/
theorem bin_unrecognized_format_unknown_type
    (fmt : String) (v : Bool)
    (h1 : fmt ≠ "jpeg") (h2 : fmt ≠ "jpg") (h3 : fmt ≠ "png") (h4 : fmt ≠ "webp") :
    resolve_kind ".bin" ⟨some fmt, v⟩ = ⟨some ".bin", true, false⟩ ∧
    run_outcome ".bin" ⟨some fmt, v⟩ = RunOutcome.unknownType ".bin" := by
  have hres : resolve_kind ".bin" ⟨some fmt, v⟩ = ⟨some ".bin", true, false⟩ := by
    unfold resolve_kind
    rw [if_pos rfl]
    dsimp only
    rw [if_neg (not_or.mpr ⟨h1, h2⟩), if_neg h3, if_neg h4]
  refine ⟨hres, ?_⟩
  unfold run_outcome
  rw [hres]
  decide

/-- C10 witness: a `.bin` file whose bytes decode as GIF keeps the
placeholder extension and produces the unknown-file-type failure. -/
theorem bin_unrecognized_format_unknown_type_witness :
    resolve_kind ".bin" ⟨some "gif", true⟩ = ⟨some ".bin", true, false⟩ ∧
    run_outcome ".bin" ⟨some "gif", true⟩ = RunOutcome.unknownType ".bin" :=
  bin_unrecognized_format_unknown_type "gif" true (by decide) (by decide) (by decide)
    (by decide)

end FormatMedia
